import Mathlib

set_option maxRecDepth 40000

/-!
Verification of the general-question analyzer and its pipeline integration
(`general_question_analyzer.py`, `chatbot_app.py`).

Strings are modelled as `List Char`; Python's `str` operations used by the
code (`strip`, `lower`, `rstrip`, `split`, substring containment) are
embedded below on the ASCII fragment the analyzer manipulates.  A Python
runtime error (an uncaught exception, e.g. an `IndexError`) is modelled by
`Option`: `none` means the call raised.
-/

namespace GQA

/-- Python whitespace characters recognised by `str.strip` / `str.split`
(ASCII fragment): space, tab, newline, carriage return, vertical tab,
form feed. -/
def isPySpace (c : Char) : Bool :=
  c = ' ' || c = '\t' || c = '\n' || c = '\r' || c = '\x0b' || c = '\x0c'

/-- `str.strip()`: drop leading and trailing whitespace. -/
def pyStrip (l : List Char) : List Char :=
  ((l.dropWhile isPySpace).reverse.dropWhile isPySpace).reverse

/-- `str.lower()` (ASCII fragment): lowercase each character. -/
def pyLower (l : List Char) : List Char :=
  l.map Char.toLower

/-- The punctuation set of `rstrip('!?.,;')`. -/
def isTrailPunct (c : Char) : Bool :=
  c = '!' || c = '?' || c = '.' || c = ',' || c = ';'

/-- `str.rstrip('!?.,;')`: drop trailing characters from that set. -/
def pyRstripPunct (l : List Char) : List Char :=
  (l.reverse.dropWhile isTrailPunct).reverse

/-- Worker for `str.split()` (no separator argument): accumulate the current
run of non-whitespace characters in `acc` (reversed). -/
def splitWsAux : List Char → List Char → List (List Char)
  | [], acc => if acc.isEmpty then [] else [acc.reverse]
  | c :: cs, acc =>
    if isPySpace c then
      if acc.isEmpty then splitWsAux cs [] else acc.reverse :: splitWsAux cs []
    else splitWsAux cs (c :: acc)

/-- `str.split()`: split on runs of whitespace, discarding empty tokens. -/
def pySplitWs (l : List Char) : List (List Char) :=
  splitWsAux l []

/-- `GeneralQuestionAnalyzer.SIMPLE_GREETINGS`. -/
def SIMPLE_GREETINGS : List (List Char) :=
  ["hi".data, "hello".data, "hey".data, "hola".data, "greetings".data,
   "howdy".data, "yo".data, "sup".data, "hiya".data, "heya".data,
   "bonjour".data, "aloha".data]

/-- `GeneralQuestionAnalyzer.WELL_BEING_QUESTIONS`. -/
def WELL_BEING_QUESTIONS : List (List Char) :=
  ["how are you".data, "how are you doing".data, "how\x27re you".data,
   "how\x27re you doing".data, "how do you do".data, "what\x27s up".data,
   "whats up".data, "wassup".data, "what\x27s going on".data,
   "whats going on".data, "how have you been".data, "how\x27s it going".data,
   "hows it going".data, "how you doing".data, "you good".data,
   "you okay".data, "how are things".data, "how is it going".data]

/-- `GeneralQuestionAnalyzer.IDENTITY_QUESTIONS`. -/
def IDENTITY_QUESTIONS : List (List Char) :=
  ["who are you".data, "what are you".data, "what is your name".data,
   "whats your name".data, "what\x27s your name".data, "who r u".data,
   "what r u".data, "tell me about yourself".data,
   "introduce yourself".data]

/-- Consume a (possibly empty) run of copies of `c`. -/
def dropRun (c : Char) : List Char → List Char
  | [] => []
  | x :: xs => if x = c then dropRun c xs else x :: xs

/-- Regex `c+`: require at least one `c`, consume the whole run greedily.
(Greedy consumption is equivalent to backtracking here because in
`GREETING_PATTERN` the character after each `+` differs from the repeated
character.) -/
def matchPlus (c : Char) : List Char → Option (List Char)
  | [] => none
  | x :: xs => if x = c then some (dropRun c xs) else none

/-- Match a literal character sequence, returning the rest. -/
def matchLit : List Char → List Char → Option (List Char)
  | [], rest => some rest
  | _ :: _, [] => none
  | c :: cs, x :: xs => if x = c then matchLit cs xs else none

/-- The character class `[\s!.?]` of `GREETING_PATTERN`. -/
def isTrailClass (c : Char) : Bool :=
  isPySpace c || c = '!' || c = '.' || c = '?'

/-- Does the stem-matching residue consist only of `[\s!.?]*`? -/
def restOnlyTrail : Option (List Char) → Bool
  | none => false
  | some r => r.all isTrailClass

/-- `GREETING_PATTERN = re.compile(r'^(hi+|he+y+|hello+|hola+|yo+)[\s!.?]*$', re.IGNORECASE)`
applied with `.match` anchored at the start; the input is already
lowercased, so `IGNORECASE` is immaterial. -/
def greetingPatternMatch (l : List Char) : Bool :=
  restOnlyTrail ((matchLit ['h'] l).bind (matchPlus 'i')) ||
  restOnlyTrail (((matchLit ['h'] l).bind (matchPlus 'e')).bind (matchPlus 'y')) ||
  restOnlyTrail ((matchLit ['h', 'e', 'l', 'l'] l).bind (matchPlus 'o')) ||
  restOnlyTrail ((matchLit ['h', 'o', 'l'] l).bind (matchPlus 'a')) ||
  restOnlyTrail ((matchLit ['y'] l).bind (matchPlus 'o'))

/-- The response categories, keys of `response_templates`. -/
inductive Category where
  | greeting
  | well_being
  | identity
deriving DecidableEq, Repr

/-- `response_templates['greeting']`. -/
def greetingTemplates : List (List Char) :=
  ["Hello! How can I help you with your knowledge base today?".data,
   "Hi there! What would you like to know from your knowledge base?".data,
   "Hey! I\x27m ready to help you explore your knowledge base.".data]

/-- `response_templates['well_being']`. -/
def wellBeingTemplates : List (List Char) :=
  ["I\x27m doing great! I\x27m here to help you with your knowledge base. What can I answer for you?".data,
   "I\x27m excellent, thank you! Ready to assist you with any questions about your knowledge base.".data]

/-- `response_templates['identity']`. -/
def identityTemplates : List (List Char) :=
  ["I\x27m your Knowledge Base Assistant, powered by Supermemory and Claude. I help you find and understand information from your knowledge base. What would you like to know?".data,
   "I\x27m an AI assistant designed to help you explore your knowledge base using Supermemory\x27s search capabilities and Claude\x27s intelligence. How can I assist you today?".data]

/-- `response_templates` as a function of the category. -/
def responseTemplates : Category → List (List Char)
  | .greeting => greetingTemplates
  | .well_being => wellBeingTemplates
  | .identity => identityTemplates

/-- `self._response_index`: one rotation cursor per category. -/
structure AnalyzerState where
  greeting : Nat
  well_being : Nat
  identity : Nat
deriving DecidableEq, Repr

/-- `{'greeting': 0, 'well_being': 0, 'identity': 0}` from `__init__`. -/
def initState : AnalyzerState :=
  ⟨0, 0, 0⟩

/-- Read the rotation cursor of a category. -/
def cursorOf (st : AnalyzerState) : Category → Nat
  | .greeting => st.greeting
  | .well_being => st.well_being
  | .identity => st.identity

/-- Write the rotation cursor of a category. -/
def setCursor (st : AnalyzerState) : Category → Nat → AnalyzerState
  | .greeting, n => ⟨n, st.well_being, st.identity⟩
  | .well_being, n => ⟨st.greeting, n, st.identity⟩
  | .identity, n => ⟨st.greeting, st.well_being, n⟩

/-- `GeneralQuestionAnalyzer._get_response`: read the template at the
category's cursor (`templates[index]` raises `IndexError` out of bounds,
modelled by `none`), then advance the cursor modulo the list length. -/
def get_response (st : AnalyzerState) (cat : Category) :
    Option (List Char × AnalyzerState) :=
  let templates := responseTemplates cat
  let index := cursorOf st cat
  match templates.get? index with
  | none => none
  | some r => some (r, setCursor st cat ((index + 1) % templates.length))

/-- A Python value passed as `query`: either a `str` or any non-string
value (`analyze` treats every non-string uniformly). -/
inductive PyVal where
  | str : List Char → PyVal
  | nonstr : PyVal

/-- Package a `_get_response` result as `(True, response)`. -/
def asGeneral (o : Option (List Char × AnalyzerState)) :
    Option ((Bool × Option (List Char)) × AnalyzerState) :=
  o.map (fun p => ((true, some p.1), p.2))

/-- `GeneralQuestionAnalyzer.analyze`.  Returns
`some ((is_general, response), new_state)`, or `none` when the Python code
would raise (the only raise sites are `cleaned.split()[0]` and
`templates[index]`). -/
def analyze (st : AnalyzerState) (q : PyVal) :
    Option ((Bool × Option (List Char)) × AnalyzerState) :=
  match q with
  | .nonstr => some ((false, none), st)
  | .str s =>
    if s.isEmpty then some ((false, none), st)
    else
      let normalized := pyLower (pyStrip s)
      if normalized.isEmpty ∨ normalized.length < 2 then
        some ((false, none), st)
      else
        let cleaned := pyRstripPunct normalized
        if cleaned ∈ SIMPLE_GREETINGS then
          asGeneral (get_response st .greeting)
        else if greetingPatternMatch normalized then
          asGeneral (get_response st .greeting)
        else if cleaned ∈ WELL_BEING_QUESTIONS then
          asGeneral (get_response st .well_being)
        else if cleaned ∈ IDENTITY_QUESTIONS then
          asGeneral (get_response st .identity)
        else
          match (if ' ' ∈ cleaned then (pySplitWs cleaned).head? else some cleaned) with
          | none => none
          | some w =>
            if w ∈ SIMPLE_GREETINGS ∧ (pySplitWs cleaned).length ≤ 3 then
              asGeneral (get_response st .greeting)
            else some ((false, none), st)

/-- The spec-level `ClassificationResult`. -/
inductive ClassificationResult where
  | general : List Char → ClassificationResult
  | knowledgeSeeking : ClassificationResult
deriving DecidableEq, Repr

/-- The spec-level `classify`, read off `analyze`: `(True, r)` is
`General(r)` and `(False, None)` is `KnowledgeSeeking`. -/
def classify (st : AnalyzerState) (q : PyVal) :
    Option (ClassificationResult × AnalyzerState) :=
  match analyze st q with
  | none => none
  | some ((true, some r), st') => some (.general r, st')
  | some ((true, none), st') => some (.knowledgeSeeking, st')
  | some ((false, _), st') => some (.knowledgeSeeking, st')

/-- `knowledge_indicators` from `is_likely_knowledge_query`. -/
def knowledge_indicators : List (List Char) :=
  ["what".data, "when".data, "where".data, "why".data, "how".data,
   "who".data, "which".data, "explain".data, "describe".data,
   "tell me".data, "find".data, "search".data, "show".data, "list".data,
   "get".data, "give".data, "provide".data, "details".data,
   "information".data, "about".data, "regarding".data, "concerning".data]

/-- Does `a` occur at the head of `b`? -/
def leadsWith : List Char → List Char → Bool
  | [], _ => true
  | _ :: _, [] => false
  | a :: as, b :: bs => a = b && leadsWith as bs

/-- Python's substring containment `needle in haystack`. -/
def containsSub (needle haystack : List Char) : Bool :=
  (List.range (haystack.length + 1)).any (fun i => leadsWith needle (haystack.drop i))

/-- `GeneralQuestionAnalyzer.is_likely_knowledge_query` (on an actual
string argument). -/
def is_likely_knowledge_query (q : List Char) : Bool :=
  if q.isEmpty then false
  else knowledge_indicators.any (fun ind => containsSub ind (pyLower q))

/-- The normalized form computed by `analyze`. -/
def normalizedOf (s : List Char) : List Char :=
  pyLower (pyStrip s)

/-- The cleaned form computed by `analyze`. -/
def cleanedOf (s : List Char) : List Char :=
  pyRstripPunct (normalizedOf s)

/-- All rotation cursors are in range for their template lists. -/
def cursorsInBounds (st : AnalyzerState) : Prop :=
  st.greeting < greetingTemplates.length ∧
  st.well_being < wellBeingTemplates.length ∧
  st.identity < identityTemplates.length

instance (st : AnalyzerState) : Decidable (cursorsInBounds st) := by
  unfold cursorsInBounds
  infer_instance

/-! ### Helper lemmas -/

theorem dropWhile_head_not {p : Char → Bool} :
    ∀ {l : List Char} {c : Char} {rest : List Char},
      l.dropWhile p = c :: rest → p c = false := by
  intro l
  induction l with
  | nil => intro c rest h; simp [List.dropWhile] at h
  | cons a as ih =>
    intro c rest h
    rw [List.dropWhile_cons] at h
    split at h
    · exact ih h
    · rename_i hp
      cases h
      simpa using hp

theorem pyStrip_head_not {s : List Char} {c : Char} {rest : List Char}
    (h : pyStrip s = c :: rest) : isPySpace c = false := by
  rw [pyStrip] at h
  have h2 := congrArg List.reverse
    (List.takeWhile_append_dropWhile isPySpace (s.dropWhile isPySpace).reverse)
  rw [List.reverse_append, List.reverse_reverse] at h2
  have h3 : s.dropWhile isPySpace =
      c :: (rest ++ ((s.dropWhile isPySpace).reverse.takeWhile isPySpace).reverse) := by
    conv_lhs => rw [← h2]
    rw [h]
    simp
  exact dropWhile_head_not h3

theorem isPySpace_toLower {c : Char} (h : isPySpace c = false) :
    isPySpace c.toLower = false := by
  show isPySpace (if c.toNat ≥ 65 ∧ c.toNat ≤ 90 then Char.ofNat (c.toNat + 32) else c) = false
  split
  · rename_i hc
    revert hc
    generalize c.toNat = n
    intro hc
    obtain ⟨h1, h2⟩ := hc
    interval_cases n <;> decide
  · exact h

theorem normalizedOf_head_not {s : List Char} {c : Char} {rest : List Char}
    (h : normalizedOf s = c :: rest) : isPySpace c = false := by
  unfold normalizedOf pyLower at h
  cases hp : pyStrip s with
  | nil => rw [hp] at h; simp at h
  | cons a as =>
    rw [hp] at h
    simp only [List.map_cons, List.cons.injEq] at h
    obtain ⟨h1, _⟩ := h
    rw [← h1]
    exact isPySpace_toLower (pyStrip_head_not hp)

theorem pyRstripPunct_append (x : List Char) :
    ∃ t, x = pyRstripPunct x ++ t := by
  refine ⟨(x.reverse.takeWhile isTrailPunct).reverse, ?_⟩
  have h2 := List.takeWhile_append_dropWhile isTrailPunct x.reverse
  have h4 : x = (x.reverse).reverse := (List.reverse_reverse _).symm
  rw [pyRstripPunct]
  conv_lhs => rw [h4, ← h2]
  rw [List.reverse_append]

theorem cleanedOf_head {s : List Char} {c : Char} {rest : List Char}
    (h : cleanedOf s = c :: rest) : ∃ r2, normalizedOf s = c :: r2 := by
  obtain ⟨t, ht⟩ := pyRstripPunct_append (normalizedOf s)
  refine ⟨rest ++ t, ?_⟩
  rw [ht]
  rw [cleanedOf] at h
  rw [h]
  simp

theorem cleanedOf_head_not {s : List Char} {c : Char} {rest : List Char}
    (h : cleanedOf s = c :: rest) : isPySpace c = false := by
  obtain ⟨r2, h2⟩ := cleanedOf_head h
  exact normalizedOf_head_not h2

theorem splitWsAux_ne_nil {cs : List Char} :
    ∀ {acc : List Char}, acc ≠ [] → splitWsAux cs acc ≠ [] := by
  induction cs with
  | nil =>
    intro acc h
    rw [splitWsAux, if_neg (by simpa using h)]
    exact List.cons_ne_nil _ _
  | cons d ds ih =>
    intro acc h
    rw [splitWsAux]
    split
    · rw [if_neg (by simpa using h)]
      exact List.cons_ne_nil _ _
    · exact ih (List.cons_ne_nil _ _)

theorem pySplitWs_ne_nil {c : Char} {cs : List Char} (h : isPySpace c = false) :
    pySplitWs (c :: cs) ≠ [] := by
  rw [pySplitWs, splitWsAux]
  rw [if_neg (by simp [h])]
  exact splitWsAux_ne_nil (List.cons_ne_nil _ _)

theorem get_response_greeting {st : AnalyzerState} (h : st.greeting < 3) :
    get_response st .greeting =
      some (greetingTemplates.getD st.greeting [],
        ⟨(st.greeting + 1) % 3, st.well_being, st.identity⟩) := by
  obtain ⟨g, w, i⟩ := st
  simp only at h ⊢
  interval_cases g <;> rfl

theorem get_response_well_being {st : AnalyzerState} (h : st.well_being < 2) :
    get_response st .well_being =
      some (wellBeingTemplates.getD st.well_being [],
        ⟨st.greeting, (st.well_being + 1) % 2, st.identity⟩) := by
  obtain ⟨g, w, i⟩ := st
  simp only at h ⊢
  interval_cases w <;> rfl

theorem get_response_identity {st : AnalyzerState} (h : st.identity < 2) :
    get_response st .identity =
      some (identityTemplates.getD st.identity [],
        ⟨st.greeting, st.well_being, (st.identity + 1) % 2⟩) := by
  obtain ⟨g, w, i⟩ := st
  simp only at h ⊢
  interval_cases i <;> rfl

/-- `analyze` on an actual string, written with the named normal forms. -/
theorem analyze_str (st : AnalyzerState) (s : List Char) :
    analyze st (.str s) =
      if s.isEmpty then some ((false, none), st)
      else if (normalizedOf s).isEmpty ∨ (normalizedOf s).length < 2 then
        some ((false, none), st)
      else if cleanedOf s ∈ SIMPLE_GREETINGS then
        asGeneral (get_response st .greeting)
      else if greetingPatternMatch (normalizedOf s) then
        asGeneral (get_response st .greeting)
      else if cleanedOf s ∈ WELL_BEING_QUESTIONS then
        asGeneral (get_response st .well_being)
      else if cleanedOf s ∈ IDENTITY_QUESTIONS then
        asGeneral (get_response st .identity)
      else
        match (if ' ' ∈ cleanedOf s then (pySplitWs (cleanedOf s)).head?
               else some (cleanedOf s)) with
        | none => none
        | some w =>
          if w ∈ SIMPLE_GREETINGS ∧ (pySplitWs (cleanedOf s)).length ≤ 3 then
            asGeneral (get_response st .greeting)
          else some ((false, none), st) :=
  rfl

theorem get_response_elim {st : AnalyzerState} {cat : Category}
    {v : List Char} {st2 : AnalyzerState}
    (h : get_response st cat = some (v, st2)) :
    st2 = setCursor st cat ((cursorOf st cat + 1) % (responseTemplates cat).length) ∧
    (responseTemplates cat).get? (cursorOf st cat) = some v := by
  simp only [get_response] at h
  cases hq : (responseTemplates cat).get? (cursorOf st cat) with
  | none => rw [hq] at h; simp at h
  | some r =>
    rw [hq] at h
    simp only [Option.some.injEq, Prod.mk.injEq] at h
    obtain ⟨h1, h2⟩ := h
    subst h2
    exact ⟨rfl, by rw [h1]⟩

theorem asGeneral_elim {o : Option (List Char × AnalyzerState)} {b : Bool}
    {r : Option (List Char)} {st' : AnalyzerState}
    (h : asGeneral o = some ((b, r), st')) :
    ∃ v, o = some (v, st') ∧ b = true ∧ r = some v := by
  cases o with
  | none => simp [asGeneral] at h
  | some p =>
    obtain ⟨v, st2⟩ := p
    simp only [asGeneral, Option.map_some', Option.some.injEq, Prod.mk.injEq] at h
    obtain ⟨⟨hb, hr⟩, hst⟩ := h
    subst hst
    exact ⟨v, rfl, hb.symm, hr.symm⟩

/-- State-transition case analysis for `analyze`: either nothing matched and
the state is untouched, or exactly one category's cursor advances by one
modulo its template-list length. -/
theorem analyze_state_cases {st : AnalyzerState} {q : PyVal} {b : Bool}
    {r : Option (List Char)} {st' : AnalyzerState}
    (h : analyze st q = some ((b, r), st')) :
    (b = false ∧ r = none ∧ st' = st) ∨
    (b = true ∧ (∃ v, r = some v) ∧
      (st' = ⟨(st.greeting + 1) % greetingTemplates.length,
              st.well_being, st.identity⟩ ∨
       st' = ⟨st.greeting, (st.well_being + 1) % wellBeingTemplates.length,
              st.identity⟩ ∨
       st' = ⟨st.greeting, st.well_being,
              (st.identity + 1) % identityTemplates.length⟩)) := by
  have greet : ∀ (hg : asGeneral (get_response st .greeting) = some ((b, r), st')),
      b = true ∧ (∃ v, r = some v) ∧
        st' = ⟨(st.greeting + 1) % greetingTemplates.length,
               st.well_being, st.identity⟩ := by
    intro hg
    obtain ⟨v, hv, hb, hr⟩ := asGeneral_elim hg
    obtain ⟨hset, _⟩ := get_response_elim hv
    exact ⟨hb, ⟨v, hr⟩, hset⟩
  have well : ∀ (hg : asGeneral (get_response st .well_being) = some ((b, r), st')),
      b = true ∧ (∃ v, r = some v) ∧
        st' = ⟨st.greeting, (st.well_being + 1) % wellBeingTemplates.length,
               st.identity⟩ := by
    intro hg
    obtain ⟨v, hv, hb, hr⟩ := asGeneral_elim hg
    obtain ⟨hset, _⟩ := get_response_elim hv
    exact ⟨hb, ⟨v, hr⟩, hset⟩
  have ident : ∀ (hg : asGeneral (get_response st .identity) = some ((b, r), st')),
      b = true ∧ (∃ v, r = some v) ∧
        st' = ⟨st.greeting, st.well_being,
               (st.identity + 1) % identityTemplates.length⟩ := by
    intro hg
    obtain ⟨v, hv, hb, hr⟩ := asGeneral_elim hg
    obtain ⟨hset, _⟩ := get_response_elim hv
    exact ⟨hb, ⟨v, hr⟩, hset⟩
  cases q with
  | nonstr =>
    simp only [analyze, Option.some.injEq, Prod.mk.injEq] at h
    obtain ⟨⟨h1, h2⟩, h3⟩ := h
    exact Or.inl ⟨h1.symm, h2.symm, h3.symm⟩
  | str s =>
    rw [analyze_str] at h
    split_ifs at h with h1 h2 h3 h4 h5 h6 hsp
    · simp only [Option.some.injEq, Prod.mk.injEq] at h
      obtain ⟨⟨ha, hb'⟩, hc⟩ := h
      exact Or.inl ⟨ha.symm, hb'.symm, hc.symm⟩
    · simp only [Option.some.injEq, Prod.mk.injEq] at h
      obtain ⟨⟨ha, hb'⟩, hc⟩ := h
      exact Or.inl ⟨ha.symm, hb'.symm, hc.symm⟩
    · obtain ⟨hb, hv, hst⟩ := greet h
      exact Or.inr ⟨hb, hv, Or.inl hst⟩
    · obtain ⟨hb, hv, hst⟩ := greet h
      exact Or.inr ⟨hb, hv, Or.inl hst⟩
    · obtain ⟨hb, hv, hst⟩ := well h
      exact Or.inr ⟨hb, hv, Or.inr (Or.inl hst)⟩
    · obtain ⟨hb, hv, hst⟩ := ident h
      exact Or.inr ⟨hb, hv, Or.inr (Or.inr hst)⟩
    · split at h
      · exact absurd h (by simp)
      · split_ifs at h with h7
        · obtain ⟨hb, hv, hst⟩ := greet h
          exact Or.inr ⟨hb, hv, Or.inl hst⟩
        · simp only [Option.some.injEq, Prod.mk.injEq] at h
          obtain ⟨⟨ha, hb'⟩, hc⟩ := h
          exact Or.inl ⟨ha.symm, hb'.symm, hc.symm⟩
    · split at h
      · exact absurd h (by simp)
      · split_ifs at h with h7
        · obtain ⟨hb, hv, hst⟩ := greet h
          exact Or.inr ⟨hb, hv, Or.inl hst⟩
        · simp only [Option.some.injEq, Prod.mk.injEq] at h
          obtain ⟨⟨ha, hb'⟩, hc⟩ := h
          exact Or.inl ⟨ha.symm, hb'.symm, hc.symm⟩

/-- Cursor bounds are preserved by any successful `analyze` call. -/
theorem analyze_preserves {st : AnalyzerState} {q : PyVal}
    {res : (Bool × Option (List Char))} {st' : AnalyzerState}
    (h : analyze st q = some (res, st')) (hb : cursorsInBounds st) :
    cursorsInBounds st' := by
  obtain ⟨b, r⟩ := res
  rcases analyze_state_cases h with ⟨_, _, hst⟩ | ⟨_, _, hst | hst | hst⟩
  · subst hst; exact hb
  · subst hst
    exact ⟨Nat.mod_lt _ (by decide), hb.2.1, hb.2.2⟩
  · subst hst
    exact ⟨hb.1, Nat.mod_lt _ (by decide), hb.2.2⟩
  · subst hst
    exact ⟨hb.1, hb.2.1, Nat.mod_lt _ (by decide)⟩

/-- `analyze` never raises when the cursors are in bounds (the only raise
sites are `templates[index]` and `cleaned.split()[0]`, and neither can
fire). -/
theorem analyze_isSome {st : AnalyzerState} (hb : cursorsInBounds st)
    (q : PyVal) : (analyze st q).isSome := by
  obtain ⟨hg, hw, hi⟩ := hb
  cases q with
  | nonstr => simp [analyze]
  | str s =>
    rw [analyze_str]
    split_ifs with h1 h2 h3 h4 h5 h6 hsp
    · simp
    · simp
    · rw [get_response_greeting hg]; simp [asGeneral]
    · rw [get_response_greeting hg]; simp [asGeneral]
    · rw [get_response_well_being hw]; simp [asGeneral]
    · rw [get_response_identity hi]; simp [asGeneral]
    · split
      · rename_i heq
        exfalso
        cases hc : cleanedOf s with
        | nil => rw [hc] at hsp; simp at hsp
        | cons c cs =>
          rw [hc] at heq
          rw [List.head?_eq_none_iff] at heq
          exact pySplitWs_ne_nil (cleanedOf_head_not hc) heq
      · split_ifs with h7
        · rw [get_response_greeting hg]; simp [asGeneral]
        · simp
    · split
      · rename_i heq
        simp at heq
      · split_ifs with h7
        · rw [get_response_greeting hg]; simp [asGeneral]
        · simp

/-- The short-input guard: when the normalized form has fewer than 2
characters, `analyze` returns `(False, None)` and leaves the state alone. -/
theorem analyze_short {st : AnalyzerState} {s : List Char}
    (h : (normalizedOf s).length < 2) :
    analyze st (.str s) = some ((false, none), st) := by
  rw [analyze_str]
  by_cases he : s.isEmpty
  · rw [if_pos he]
  · rw [if_neg he, if_pos (Or.inr h)]

theorem classify_short {st : AnalyzerState} {s : List Char}
    (h : (normalizedOf s).length < 2) :
    classify st (.str s) = some (.knowledgeSeeking, st) := by
  rw [classify, analyze_short h]

theorem classify_isSome {st : AnalyzerState} (hb : cursorsInBounds st)
    (q : PyVal) : (classify st q).isSome := by
  have h := analyze_isSome hb q
  rw [Option.isSome_iff_exists] at h
  obtain ⟨⟨⟨b, r⟩, st'⟩, hq⟩ := h
  rw [classify, hq]
  cases b <;> cases r <;> simp

/-- A successful greeting-pattern match needs at least two characters. -/
theorem greetingPatternMatch_two_le {l : List Char}
    (h : greetingPatternMatch l = true) : 2 ≤ l.length := by
  match l with
  | [] => exact absurd h (by decide)
  | [a] =>
    exfalso
    by_cases h1 : a = 'h' <;> by_cases h2 : a = 'y' <;>
      simp [greetingPatternMatch, matchLit, matchPlus, restOnlyTrail,
        h1, h2] at h
  | a :: b :: t => simp

/-- Membership transfers from the cleaned form to the normalized form. -/
theorem mem_normalized_of_mem_cleaned {s : List Char} {a : Char}
    (h : a ∈ cleanedOf s) : a ∈ normalizedOf s := by
  obtain ⟨t, ht⟩ := pyRstripPunct_append (normalizedOf s)
  rw [ht]
  exact List.mem_append_left _ h

/-- A space inside the cleaned form forces the normalized form past the
short-input guard. -/
theorem two_le_normalized_of_space {s : List Char}
    (h : ' ' ∈ cleanedOf s) : 2 ≤ (normalizedOf s).length := by
  have hm : ' ' ∈ normalizedOf s := mem_normalized_of_mem_cleaned h
  cases hn : normalizedOf s with
  | nil => rw [hn] at hm; simp at hm
  | cons c rest =>
    cases rest with
    | nil =>
      exfalso
      rw [hn] at hm
      simp only [List.mem_singleton] at hm
      have := normalizedOf_head_not hn
      rw [← hm] at this
      simp [isPySpace] at this
    | cons d rest2 => simp

theorem isEmpty_false_of_two_le {s : List Char}
    (h : 2 ≤ (normalizedOf s).length) : s.isEmpty = false := by
  cases s with
  | nil => simp [normalizedOf, pyLower, pyStrip] at h
  | cons a as => rfl

theorem getD_of_get_some {α : Type} {l : List α} {n : Nat} {v d : α}
    (h : l.get? n = some v) : l.getD n d = v := by
  show (l.get? n).getD d = v
  rw [h]
  rfl

theorem cursorOf_setCursor_self (st : AnalyzerState) (cat : Category)
    (n : Nat) : cursorOf (setCursor st cat n) cat = n := by
  cases cat <;> rfl

theorem cursorOf_setCursor_ne (st : AnalyzerState) (cat cat2 : Category)
    (n : Nat) (hne : cat2 ≠ cat) :
    cursorOf (setCursor st cat n) cat2 = cursorOf st cat2 := by
  cases cat <;> cases cat2 <;> first | rfl | exact absurd rfl hne

/-- When `analyze` answers `(True, reply)`, the reply is the matched
category's template at that category's current cursor, and the new state
is exactly that category's cursor advanced by one modulo its list
length. -/
theorem analyze_general_elim {st : AnalyzerState} {q : PyVal} {b : Bool}
    {r : Option (List Char)} {st' : AnalyzerState}
    (h : analyze st q = some ((b, r), st')) (hb : b = true) :
    ∃ cat : Category,
      r = some ((responseTemplates cat).getD (cursorOf st cat) []) ∧
      st' = setCursor st cat
        ((cursorOf st cat + 1) % (responseTemplates cat).length) := by
  subst hb
  have mk : ∀ (cat : Category),
      asGeneral (get_response st cat) = some ((true, r), st') →
      r = some ((responseTemplates cat).getD (cursorOf st cat) []) ∧
      st' = setCursor st cat
        ((cursorOf st cat + 1) % (responseTemplates cat).length) := by
    intro cat hg
    obtain ⟨v, hv, -, hr⟩ := asGeneral_elim hg
    obtain ⟨hset, hget⟩ := get_response_elim hv
    refine ⟨?_, hset⟩
    rw [hr, getD_of_get_some hget]
  cases q with
  | nonstr =>
    simp only [analyze, Option.some.injEq, Prod.mk.injEq] at h
    exact absurd h.1.1 (by simp)
  | str s =>
    rw [analyze_str] at h
    split_ifs at h with h1 h2 h3 h4 h5 h6 hsp
    · simp only [Option.some.injEq, Prod.mk.injEq] at h
      exact absurd h.1.1 (by simp)
    · simp only [Option.some.injEq, Prod.mk.injEq] at h
      exact absurd h.1.1 (by simp)
    · exact ⟨.greeting, mk .greeting h⟩
    · exact ⟨.greeting, mk .greeting h⟩
    · exact ⟨.well_being, mk .well_being h⟩
    · exact ⟨.identity, mk .identity h⟩
    · split at h
      · exact absurd h (by simp)
      · split_ifs at h with h7
        · exact ⟨.greeting, mk .greeting h⟩
        · simp only [Option.some.injEq, Prod.mk.injEq] at h
          exact absurd h.1.1 (by simp)
    · split at h
      · exact absurd h (by simp)
      · split_ifs at h with h7
        · exact ⟨.greeting, mk .greeting h⟩
        · simp only [Option.some.injEq, Prod.mk.injEq] at h
          exact absurd h.1.1 (by simp)

/-! ### The reply sequence of repeated `analyze(st, "hi")` calls -/

/-- One `analyze(st, "hi")` call, keeping the reply and the new state. -/
def hiStep (st : AnalyzerState) : Option (List Char × AnalyzerState) :=
  match analyze st (.str "hi".data) with
  | some ((_, some r), st') => some (r, st')
  | _ => none

/-- The reply produced by the `n`-th consecutive `analyze(st, "hi")` call
(0-based), threading the rotation state. -/
def hiReply : Nat → AnalyzerState → Option (List Char)
  | 0, st => (hiStep st).map Prod.fst
  | n + 1, st =>
    match hiStep st with
    | some (_, st') => hiReply n st'
    | none => none

theorem analyze_hi (st : AnalyzerState) :
    analyze st (.str "hi".data) = asGeneral (get_response st .greeting) :=
  rfl

theorem hiStep_eq {st : AnalyzerState} (h : st.greeting < 3) :
    hiStep st = some (greetingTemplates.getD st.greeting [],
      ⟨(st.greeting + 1) % 3, st.well_being, st.identity⟩) := by
  have e : analyze st (.str "hi".data) =
      some ((true, some (greetingTemplates.getD st.greeting [])),
        ⟨(st.greeting + 1) % 3, st.well_being, st.identity⟩) := by
    rw [analyze_hi, get_response_greeting h]
    rfl
  rw [hiStep, e]

theorem hiReply_eq {st : AnalyzerState} (h : st.greeting < 3) (n : Nat) :
    hiReply n st = some (greetingTemplates.getD ((st.greeting + n) % 3) []) := by
  induction n generalizing st with
  | zero =>
    rw [hiReply, hiStep_eq h]
    simp [Nat.mod_eq_of_lt h]
  | succ n ih =>
    rw [hiReply, hiStep_eq h]
    show hiReply n ⟨(st.greeting + 1) % 3, st.well_being, st.identity⟩ =
      some (greetingTemplates.getD ((st.greeting + (n + 1)) % 3) [])
    have h2 : ((st.greeting + 1) % 3) < 3 := Nat.mod_lt _ (by decide)
    rw [ih h2]
    congr 2
    show ((st.greeting + 1) % 3 + n) % 3 = (st.greeting + (n + 1)) % 3
    omega

/-! ### The chat-input handler of `chatbot_app.py` -/

/-- The `role` field of a chat message. -/
inductive Role where
  | user
  | assistant
deriving DecidableEq, Repr

/-- A message of `st.session_state.messages`: user messages carry no
`context` key (`none`), assistant messages carry a context-chunk list. -/
structure ChatMessage where
  role : Role
  content : List Char
  context : Option (List (List Char))
deriving DecidableEq, Repr

/-- `'sep'.join(parts)`. -/
def joinSep (sep : List Char) : List (List Char) → List Char
  | [] => []
  | [x] => x
  | x :: y :: t => x ++ sep ++ joinSep sep (y :: t)

/-- `f"Context {i+1}:\n{chunk}"` for each chunk, `enumerate`-style. -/
def numberChunks (chunks : List (List Char)) : List (List Char) :=
  ((List.range chunks.length).zip chunks).map
    (fun p => "Context ".data ++ (Nat.repr (p.1 + 1)).data ++ ":\n".data ++ p.2)

/-- The `user_message` built by `generate_response_stream`: the grounded
prompt when context chunks exist, the explicit no-context prompt when the
chunk list is empty. -/
def buildUserMessage (query : List Char) (chunks : List (List Char)) :
    List Char :=
  if chunks.isEmpty then
    "No relevant context was found in the knowledge base for this question.\n\nUser Question: ".data
      ++ query ++
      "\n\nPlease acknowledge that you don\x27t have specific information about this in the knowledge base, but you can provide general assistance if appropriate.".data
  else
    "Based on the following context from the knowledge base, please answer the user\x27s question.\n\nRetrieved Context:\n".data
      ++ joinSep "\n\n---\n\n".data (numberChunks chunks) ++
      "\n\nUser Question: ".data ++ query ++
      "\n\nPlease provide a helpful answer based on the context above. If the context doesn\x27t fully answer the question, please say so.".data

/-- What one turn of the chat-input handler produced. -/
structure TurnResult where
  history : List ChatMessage
  analyzer : AnalyzerState
  searchCalls : Nat
  reply : List Char
  contextUsed : List (List Char)
  genPromptUsed : Option (List Char)
deriving DecidableEq, Repr

/-- The `if prompt := st.chat_input(...)` handler of `chatbot_app.py`.
The Retrieval Service is stubbed by `searchResults` (what
`search_supermemory` would return; `searchCalls` counts its invocations)
and the Generation Service by `gen` (mapping the built `user_message` to
the accumulated streamed reply). -/
def handleChatInput (st : AnalyzerState) (history : List ChatMessage)
    (prompt : List Char) (searchResults : List (List Char))
    (gen : List Char → List Char) : Option TurnResult :=
  let history1 := history ++ [⟨Role.user, prompt, none⟩]
  match analyze st (.str prompt) with
  | none => none
  | some ((true, resp), st') =>
    let quick := resp.getD []
    some ⟨history1 ++ [⟨Role.assistant, quick, some []⟩], st', 0, quick, [], none⟩
  | some ((false, _), st') =>
    let msg := buildUserMessage prompt searchResults
    let full := gen msg
    some ⟨history1 ++ [⟨Role.assistant, full, some searchResults⟩],
      st', 1, full, searchResults, some msg⟩

/-! ### Sequences of analyze calls -/

/-- Run `analyze` over a list of queries, threading the rotation state;
`none` records that some call raised. -/
def runQueries : AnalyzerState → List PyVal → Option AnalyzerState
  | st, [] => some st
  | st, q :: qs =>
    match analyze st q with
    | none => none
    | some (_, st') => runQueries st' qs

theorem runQueries_total {qs : List PyVal} :
    ∀ {st : AnalyzerState}, cursorsInBounds st →
      ∃ st', runQueries st qs = some st' ∧ cursorsInBounds st' := by
  induction qs with
  | nil => intro st hb; exact ⟨st, rfl, hb⟩
  | cons q qs ih =>
    intro st hb
    have h := analyze_isSome hb q
    rw [Option.isSome_iff_exists] at h
    obtain ⟨⟨res, st1⟩, hq⟩ := h
    have hb1 := analyze_preserves hq hb
    obtain ⟨st', h1, h2⟩ := ih hb1
    refine ⟨st', ?_, h2⟩
    rw [runQueries, hq]
    exact h1

/-! ### Claim theorems -/

/-- C1 (counterexample): the query `"hi\tthere"` (tab-separated) matches
none of rules 1-4, its first whitespace-delimited token `"hi"` is a
greeting token, and the cleaned form has at most 3 tokens — yet `classify`
returns KnowledgeSeeking, because the code only consults `split()[0]` when
the cleaned form contains a literal space character. -/
theorem C1_counterexample :
    cleanedOf "hi\tthere".data ∉ SIMPLE_GREETINGS ∧
    greetingPatternMatch (normalizedOf "hi\tthere".data) = false ∧
    cleanedOf "hi\tthere".data ∉ WELL_BEING_QUESTIONS ∧
    cleanedOf "hi\tthere".data ∉ IDENTITY_QUESTIONS ∧
    (pySplitWs (cleanedOf "hi\tthere".data)).head? = some "hi".data ∧
    "hi".data ∈ SIMPLE_GREETINGS ∧
    (pySplitWs (cleanedOf "hi\tthere".data)).length ≤ 3 ∧
    classify initState (.str "hi\tthere".data) =
      some (.knowledgeSeeking, initState) := by
  decide

/-- C1 (amended): for every query that matches none of rules 1-4, if the
cleaned form contains a space character, its first whitespace-delimited
token is an exact greeting token, and the cleaned form has at most 3
whitespace-delimited tokens, then `analyze` returns General with the
Greeting-category reply at the current cursor. -/
theorem C1_compound_greeting_amended (st : AnalyzerState) (s : List Char)
    (w : List Char) (hb : cursorsInBounds st)
    (h1 : cleanedOf s ∉ SIMPLE_GREETINGS)
    (h2 : greetingPatternMatch (normalizedOf s) = false)
    (h3 : cleanedOf s ∉ WELL_BEING_QUESTIONS)
    (h4 : cleanedOf s ∉ IDENTITY_QUESTIONS)
    (hsp : ' ' ∈ cleanedOf s)
    (hw : (pySplitWs (cleanedOf s)).head? = some w)
    (hmem : w ∈ SIMPLE_GREETINGS)
    (hlen : (pySplitWs (cleanedOf s)).length ≤ 3) :
    analyze st (.str s) =
      some ((true, some (greetingTemplates.getD st.greeting [])),
        ⟨(st.greeting + 1) % greetingTemplates.length,
         st.well_being, st.identity⟩) := by
  have hn2 := two_le_normalized_of_space hsp
  have hne : s.isEmpty = false := isEmpty_false_of_two_le hn2
  have hguard : ¬((normalizedOf s).isEmpty = true ∨
      (normalizedOf s).length < 2) := by
    rintro (h | h)
    · rw [List.isEmpty_iff] at h
      rw [h] at hn2
      simp at hn2
    · omega
  rw [analyze_str, if_neg (by simp [hne]), if_neg hguard, if_neg h1,
    if_neg (by simp [h2]), if_neg h3, if_neg h4]
  split
  · rename_i heq
    rw [if_pos hsp, hw] at heq
    exact absurd heq (by simp)
  · rename_i w' heq
    rw [if_pos hsp, hw] at heq
    have hww : w = w' := by injection heq
    subst hww
    rw [if_pos ⟨hmem, hlen⟩, get_response_greeting hb.1]
    rfl

/-- C1 (witness): the amended rule applied to `"hi there"`. -/
theorem C1_compound_greeting_witness :
    (cursorsInBounds initState ∧
     cleanedOf "hi there".data ∉ SIMPLE_GREETINGS ∧
     greetingPatternMatch (normalizedOf "hi there".data) = false ∧
     cleanedOf "hi there".data ∉ WELL_BEING_QUESTIONS ∧
     cleanedOf "hi there".data ∉ IDENTITY_QUESTIONS ∧
     ' ' ∈ cleanedOf "hi there".data ∧
     (pySplitWs (cleanedOf "hi there".data)).head? = some "hi".data ∧
     "hi".data ∈ SIMPLE_GREETINGS ∧
     (pySplitWs (cleanedOf "hi there".data)).length ≤ 3) ∧
    analyze initState (.str "hi there".data) =
      some ((true, some (greetingTemplates.getD 0 [])),
        ⟨(0 + 1) % greetingTemplates.length, 0, 0⟩) :=
  ⟨⟨by decide, by decide, by decide, by decide, by decide, by decide,
    by decide, by decide, by decide⟩,
   C1_compound_greeting_amended initState "hi there".data "hi".data
     (by decide) (by decide) (by decide) (by decide) (by decide) (by decide)
     (by decide) (by decide) (by decide)⟩

/-- C2: for a greeting query, the reply is the greeting-template entry at
the current cursor and the cursor advances by one modulo the list length;
the reply sequence of repeated `analyze(st, "hi")` calls is periodic with
period equal to the template-list length; and among five consecutive calls
at least two replies differ. -/
theorem C2_reply_rotation (st : AnalyzerState) (hb : cursorsInBounds st) :
    (∀ cat : Category, get_response st cat =
      some ((responseTemplates cat).getD (cursorOf st cat) [],
        setCursor st cat
          ((cursorOf st cat + 1) % (responseTemplates cat).length))) ∧
    analyze st (.str "hi".data) =
      some ((true, some (greetingTemplates.getD st.greeting [])),
        ⟨(st.greeting + 1) % greetingTemplates.length,
         st.well_being, st.identity⟩) ∧
    (∀ n, hiReply (n + greetingTemplates.length) st = hiReply n st) ∧
    (∃ i j, i < 5 ∧ j < 5 ∧ i ≠ j ∧ hiReply i st ≠ hiReply j st) := by
  refine ⟨?_, ?_⟩
  · intro cat
    cases cat
    · exact get_response_greeting hb.1
    · exact get_response_well_being hb.2.1
    · exact get_response_identity hb.2.2
  · obtain ⟨g, w, i⟩ := st
    obtain ⟨hg, -, -⟩ := hb
    have hg3 : g < 3 := hg
    refine ⟨?_, ?_, 0, 1, ?_, ?_, ?_, ?_⟩
    · rw [analyze_hi, get_response_greeting hg3]
      rfl
    · intro n
      rw [hiReply_eq hg3, hiReply_eq hg3]
      show some (greetingTemplates.getD ((g + (n + 3)) % 3) []) =
        some (greetingTemplates.getD ((g + n) % 3) [])
      congr 2
      omega
    · norm_num
    · norm_num
    · norm_num
    · rw [hiReply_eq hg3 0, hiReply_eq hg3 1]
      show some (greetingTemplates.getD ((g + 0) % 3) []) ≠
        some (greetingTemplates.getD ((g + 1) % 3) [])
      interval_cases g <;> decide

/-- C2 (witness): the rotation properties at the initial state. -/
theorem C2_reply_rotation_witness :
    cursorsInBounds initState ∧
    ((∀ cat : Category, get_response initState cat =
      some ((responseTemplates cat).getD (cursorOf initState cat) [],
        setCursor initState cat
          ((cursorOf initState cat + 1) % (responseTemplates cat).length))) ∧
    analyze initState (.str "hi".data) =
      some ((true, some (greetingTemplates.getD initState.greeting [])),
        ⟨(initState.greeting + 1) % greetingTemplates.length,
         initState.well_being, initState.identity⟩) ∧
    (∀ n, hiReply (n + greetingTemplates.length) initState =
      hiReply n initState) ∧
    (∃ i j, i < 5 ∧ j < 5 ∧ i ≠ j ∧
      hiReply i initState ≠ hiReply j initState)) :=
  ⟨by decide, C2_reply_rotation initState (by decide)⟩

/-- C3: `classify` is total (never raises) on every input, returns
KnowledgeSeeking on any non-string value, and returns KnowledgeSeeking on
any string whose normalized form has fewer than 2 characters. -/
theorem C3_totality (st : AnalyzerState) (q : PyVal)
    (hb : cursorsInBounds st) :
    (classify st q).isSome ∧
    (q = PyVal.nonstr → classify st q = some (.knowledgeSeeking, st)) ∧
    (∀ s, q = PyVal.str s → (normalizedOf s).length < 2 →
      classify st q = some (.knowledgeSeeking, st)) := by
  refine ⟨classify_isSome hb q, ?_, ?_⟩
  · rintro rfl
    rfl
  · rintro s rfl h
    exact classify_short h

/-- C3 (witness): totality at the initial state on a non-string input. -/
theorem C3_totality_witness :
    cursorsInBounds initState ∧
    ((classify initState PyVal.nonstr).isSome ∧
     (PyVal.nonstr = PyVal.nonstr →
       classify initState PyVal.nonstr = some (.knowledgeSeeking, initState)) ∧
     (∀ s, PyVal.nonstr = PyVal.str s → (normalizedOf s).length < 2 →
       classify initState PyVal.nonstr = some (.knowledgeSeeking, initState))) :=
  ⟨by decide, C3_totality initState PyVal.nonstr (by decide)⟩

/-- C4: whenever `analyze` signals a general question, the chat handler
makes zero Retrieval Service calls, appends the user turn and the canned
assistant turn (with empty context) to the history, and returns the canned
reply with an empty context list and no generation prompt. -/
theorem C4_pipeline_fast_path (st : AnalyzerState) (hist : List ChatMessage)
    (prompt : List Char) (sr : List (List Char)) (gen : List Char → List Char)
    (r : List Char) (st' : AnalyzerState)
    (h : analyze st (.str prompt) = some ((true, some r), st')) :
    handleChatInput st hist prompt sr gen =
      some ⟨hist ++ [⟨Role.user, prompt, none⟩, ⟨Role.assistant, r, some []⟩],
        st', 0, r, [], none⟩ := by
  simp only [handleChatInput, h]
  simp

/-- C4 (witness): the fast path on the query `"hi"`. -/
theorem C4_pipeline_fast_path_witness :
    analyze initState (.str "hi".data) =
      some ((true, some (greetingTemplates.getD 0 [])), ⟨1, 0, 0⟩) ∧
    handleChatInput initState [] "hi".data [] (fun m => m) =
      some ⟨[] ++ [⟨Role.user, "hi".data, none⟩,
             ⟨Role.assistant, greetingTemplates.getD 0 [], some []⟩],
        ⟨1, 0, 0⟩, 0, greetingTemplates.getD 0 [], [], none⟩ :=
  ⟨by decide,
   C4_pipeline_fast_path initState [] "hi".data [] (fun m => m)
     (greetingTemplates.getD 0 []) ⟨1, 0, 0⟩ (by decide)⟩

/-- C5: every string whose normalized form matches the elongated-greeting
pattern `^(hi+|he+y+|hello+|hola+|yo+)[\s!.?]*$` is classified General
with the Greeting-category reply at the current cursor. -/
theorem C5_elongated_greeting (st : AnalyzerState) (s : List Char)
    (hb : cursorsInBounds st)
    (hpat : greetingPatternMatch (normalizedOf s) = true) :
    analyze st (.str s) =
      some ((true, some (greetingTemplates.getD st.greeting [])),
        ⟨(st.greeting + 1) % greetingTemplates.length,
         st.well_being, st.identity⟩) := by
  have h2 := greetingPatternMatch_two_le hpat
  have hne : s.isEmpty = false := isEmpty_false_of_two_le h2
  have hguard : ¬((normalizedOf s).isEmpty = true ∨
      (normalizedOf s).length < 2) := by
    rintro (h | h)
    · rw [List.isEmpty_iff] at h
      rw [h] at h2
      simp at h2
    · omega
  by_cases hc : cleanedOf s ∈ SIMPLE_GREETINGS
  · rw [analyze_str, if_neg (by simp [hne]), if_neg hguard, if_pos hc,
      get_response_greeting hb.1]
    rfl
  · rw [analyze_str, if_neg (by simp [hne]), if_neg hguard, if_neg hc,
      if_pos hpat, get_response_greeting hb.1]
    rfl

/-- C5 (witness): the elongated greeting `"heyyyy"`. -/
theorem C5_elongated_greeting_witness :
    cursorsInBounds initState ∧
    greetingPatternMatch (normalizedOf "heyyyy".data) = true ∧
    analyze initState (.str "heyyyy".data) =
      some ((true, some (greetingTemplates.getD 0 [])),
        ⟨(0 + 1) % greetingTemplates.length, 0, 0⟩) :=
  ⟨by decide, by decide,
   C5_elongated_greeting initState "heyyyy".data (by decide) (by decide)⟩

/-- C6: when the Retrieval Service returns no fragments for a
knowledge-seeking query, the prompt handed to the Generation Service
starts with the explicit statement that no relevant context was found. -/
theorem C6_empty_context_prompt (st : AnalyzerState) (hist : List ChatMessage)
    (prompt : List Char) (gen : List Char → List Char) (st' : AnalyzerState)
    (h : analyze st (.str prompt) = some ((false, none), st')) :
    ∃ res, handleChatInput st hist prompt [] gen = some res ∧
      res.searchCalls = 1 ∧
      ∃ rest, res.genPromptUsed =
        some ("No relevant context was found".data ++ rest) := by
  refine ⟨⟨(hist ++ [⟨Role.user, prompt, none⟩]) ++
      [⟨Role.assistant, gen (buildUserMessage prompt []), some []⟩],
      st', 1, gen (buildUserMessage prompt []), [],
      some (buildUserMessage prompt [])⟩, ?_, rfl, ?_⟩
  · simp only [handleChatInput, h]
  · refine ⟨" in the knowledge base for this question.\n\nUser Question: ".data
      ++ (prompt ++ "\n\nPlease acknowledge that you don\x27t have specific information about this in the knowledge base, but you can provide general assistance if appropriate.".data),
      ?_⟩
    have hA : "No relevant context was found in the knowledge base for this question.\n\nUser Question: ".data =
        "No relevant context was found".data ++
        " in the knowledge base for this question.\n\nUser Question: ".data := rfl
    show some (buildUserMessage prompt []) = _
    rw [buildUserMessage,
      if_pos (show ([] : List (List Char)).isEmpty = true from rfl), hA]
    simp [List.append_assoc]

/-- C6 (witness): the empty-context prompt for the query `"what is x"`. -/
theorem C6_empty_context_prompt_witness :
    analyze initState (.str "what is x".data) =
      some ((false, none), initState) ∧
    (∃ res, handleChatInput initState [] "what is x".data [] (fun m => m) =
        some res ∧
      res.searchCalls = 1 ∧
      ∃ rest, res.genPromptUsed =
        some ("No relevant context was found".data ++ rest)) :=
  ⟨by decide,
   C6_empty_context_prompt initState [] "what is x".data (fun m => m)
     initState (by decide)⟩

/-- C7: any input whose normalized form has fewer than 2 characters is
classified KnowledgeSeeking with the rotation state untouched. -/
theorem C7_short_input_guard (st : AnalyzerState) (s : List Char)
    (h : (normalizedOf s).length < 2) :
    classify st (.str s) = some (.knowledgeSeeking, st) :=
  classify_short h

/-- C7 (witness): the guard at `""`, `"  "`, `"a"` and `"?"`. -/
theorem C7_short_input_guard_witness :
    ((normalizedOf "".data).length < 2 ∧
      classify initState (.str "".data) = some (.knowledgeSeeking, initState)) ∧
    ((normalizedOf "  ".data).length < 2 ∧
      classify initState (.str "  ".data) = some (.knowledgeSeeking, initState)) ∧
    ((normalizedOf "a".data).length < 2 ∧
      classify initState (.str "a".data) = some (.knowledgeSeeking, initState)) ∧
    ((normalizedOf "?".data).length < 2 ∧
      classify initState (.str "?".data) = some (.knowledgeSeeking, initState)) :=
  ⟨⟨by decide, C7_short_input_guard initState "".data (by decide)⟩,
   ⟨by decide, C7_short_input_guard initState "  ".data (by decide)⟩,
   ⟨by decide, C7_short_input_guard initState "a".data (by decide)⟩,
   ⟨by decide, C7_short_input_guard initState "?".data (by decide)⟩⟩

/-- C8: if `analyze` returns `(False, None)` every cursor is unchanged; if
it returns `(True, reply)` via category `cat` — witnessed by the reply
being `cat`'s template at `cat`'s current cursor — then `cat`'s cursor
advances by one modulo its template-list length and the cursor of every
other category is unchanged. -/
theorem C8_rotation_frame (st : AnalyzerState) (q : PyVal) (b : Bool)
    (r : Option (List Char)) (st' : AnalyzerState)
    (h : analyze st q = some ((b, r), st')) :
    (b = false → r = none ∧ st' = st) ∧
    (b = true → ∃ cat : Category,
      r = some ((responseTemplates cat).getD (cursorOf st cat) []) ∧
      cursorOf st' cat =
        (cursorOf st cat + 1) % (responseTemplates cat).length ∧
      ∀ cat2 : Category, cat2 ≠ cat →
        cursorOf st' cat2 = cursorOf st cat2) := by
  constructor
  · intro hb
    subst hb
    rcases analyze_state_cases h with ⟨-, hr, hst⟩ | ⟨hb, -, -⟩
    · exact ⟨hr, hst⟩
    · simp at hb
  · intro hb
    obtain ⟨cat, hr, hst⟩ := analyze_general_elim h hb
    subst hst
    exact ⟨cat, hr, cursorOf_setCursor_self st cat _,
      fun cat2 hne => cursorOf_setCursor_ne st cat cat2 _ hne⟩

/-- C8 (witness): the frame property at `"hi"` from the initial state. -/
theorem C8_rotation_frame_witness :
    analyze initState (.str "hi".data) =
      some ((true, some (greetingTemplates.getD 0 [])), ⟨1, 0, 0⟩) ∧
    ((true = false → (some (greetingTemplates.getD 0 []) :
        Option (List Char)) = none ∧ (⟨1, 0, 0⟩ : AnalyzerState) = initState) ∧
     (true = true → ∃ cat : Category,
      (some (greetingTemplates.getD 0 []) : Option (List Char)) =
        some ((responseTemplates cat).getD (cursorOf initState cat) []) ∧
      cursorOf (⟨1, 0, 0⟩ : AnalyzerState) cat =
        (cursorOf initState cat + 1) % (responseTemplates cat).length ∧
      ∀ cat2 : Category, cat2 ≠ cat →
        cursorOf (⟨1, 0, 0⟩ : AnalyzerState) cat2 =
          cursorOf initState cat2)) :=
  ⟨by decide,
   C8_rotation_frame initState (.str "hi".data) true
     (some (greetingTemplates.getD 0 [])) ⟨1, 0, 0⟩ (by decide)⟩

/-- C9: starting from the initial state, any finite sequence of `analyze`
calls with arbitrary inputs succeeds (no out-of-bounds indexing) and
leaves every rotation cursor inside its template list. -/
theorem C9_cursor_bounds (qs : List PyVal) :
    ∃ st', runQueries initState qs = some st' ∧ cursorsInBounds st' :=
  runQueries_total (by decide)

/-- C10: the query `"howdy"` is classified General with a Greeting reply
while `is_likely_knowledge_query` returns True on it, because the
substring `"how"` occurs inside `"howdy"`. -/
theorem C10_heuristic_overlap :
    analyze initState (.str "howdy".data) =
      some ((true, some (greetingTemplates.getD 0 [])), ⟨1, 0, 0⟩) ∧
    is_likely_knowledge_query "howdy".data = true ∧
    containsSub "how".data (pyLower "howdy".data) = true := by
  decide

end GQA
